import Mathlib

/-!
Verification of the discogs_alert client (`discogs_alert/client.py`).

A shallow embedding of the API client module.  Python values are modelled
explicitly: raised exceptions become `Except PyErr`, JSON values become the
`JSON` inductive, the mutable client object becomes explicit state passing
(`UserTokenClient → … → UserTokenClient × _`).  The network is modelled by
passing the server's `Response` as an input to each request-performing
operation.  The external `json.loads` decoder is a parameter (`loads`) of the
operations that use it. The domain-entity layer (`discogs_alert/entities.py`)
and the listings scraper (`discogs_alert/scrape.py`) are not part of the
embedded source; they are modelled from the specification where noted.
-/

/-- A Python exception, as surfaced by the operations of the client module. -/
inductive PyErr where
  /-- `TypeError`, e.g. from `int(None)`, `False["items"]`, or `Cls(**nonmapping)`. -/
  | typeError (msg : String)
  /-- `ValueError`, e.g. from `int("abc")`. -/
  | valueError (msg : String)
  /-- `KeyError`, from subscripting a dict with an absent key. -/
  | keyError (key : String)
  /-- `json.JSONDecodeError`, from `json.loads` on a malformed body. -/
  | jsonDecodeError (msg : String)
deriving Repr, DecidableEq

/-- A JSON value, the result of a successful `json.loads`. -/
inductive JSON where
  | null
  | bool (b : Bool)
  | num (n : Int)
  | str (s : String)
  | arr (elems : List JSON)
  | obj (pairs : List (String × JSON))
deriving Repr

/-- Python `d.get(k)` / `d[k]`-lookup on an association list (first match). -/
def dictGet (pairs : List (String × JSON)) (key : String) : Option JSON :=
  (pairs.find? (fun p => p.1 == key)).map Prod.snd

/-- Remove a key from an association list (used to model in-place replacement
of `user_list_dict["items"]`: the other pairs are kept, the replaced value is
carried separately). -/
def dictRemove (pairs : List (String × JSON)) (key : String) : List (String × JSON) :=
  pairs.filter (fun p => p.1 != key)

/-- Decimal digits to a natural number (accumulator form); `none` on the first
non-digit character. -/
def parseNatAux : List Char → Nat → Option Nat
  | [], acc => some acc
  | c :: cs, acc => if c.isDigit then parseNatAux cs (acc * 10 + (c.toNat - 48)) else none

/-- Python `int(s)` on a string: an optional minus sign followed by at least
one decimal digit; raises `ValueError` otherwise. -/
def pyIntOfString (s : String) : Except PyErr Int :=
  match s.toList with
  | '-' :: c :: cs =>
    match parseNatAux (c :: cs) 0 with
    | some n => .ok (-(n : Int))
    | none => .error (.valueError s)
  | c :: cs =>
    match parseNatAux (c :: cs) 0 with
    | some n => .ok ((n : Int))
    | none => .error (.valueError s)
  | [] => .error (.valueError s)

/-- Python `int(x)` where `x` is `resp.headers.get(k)`: `int(None)` raises a
`TypeError`, a string is parsed as a decimal integer. -/
def pyInt (o : Option String) : Except PyErr Int :=
  match o with
  | none => .error (.typeError "int argument must be a string or a number, not NoneType")
  | some s => pyIntOfString s

/-- An HTTP response from the discogs server: the input that the environment
supplies to one `requests.request` call. -/
structure Response where
  /-- Response headers (`resp.headers`); `.get` is modelled by `headersGet`. -/
  headers : List (String × String)
  /-- Raw response body (`resp.content`). -/
  content : String
  /-- HTTP status code (`resp.status_code`). -/
  status_code : Nat
deriving Repr, DecidableEq

/-- `resp.headers.get(k)`: `None` when the header is absent. -/
def headersGet (headers : List (String × String)) (key : String) : Option String :=
  (headers.find? (fun p => p.1 == key)).map Prod.snd

/-- The HTTP request handed to `requests.request` by `UserTokenClient._request`. -/
structure HTTPRequest where
  method : String
  url : String
  /-- Query parameters (`params=` keyword argument). -/
  params : List (String × String)
  data : Option String
  headers : Option (List (String × String))
deriving Repr, DecidableEq

/-- The state of a `UserTokenClient` object: the fields set by
`Client.__init__` plus the `user_token` set by `UserTokenClient.__init__`. -/
structure UserTokenClient where
  user_agent : String
  verbose : Bool
  rate_limit : Option Int
  rate_limit_used : Option Int
  rate_limit_remaining : Option Int
  user_token : String
deriving Repr, DecidableEq

/-- `Client._base_url` -/
def base_url : String := "https://api.discogs.com"

/-- `Client._base_url_non_api` -/
def base_url_non_api : String := "https://www.discogs.com"

/-- `UserTokenClient(user_agent, user_token)`: `Client.__init__` sets
`verbose = False` and the three rate-limit fields to `None`;
`UserTokenClient.__init__` additionally stores the token. -/
def UserTokenClient.init (user_agent user_token : String) : UserTokenClient :=
  { user_agent := user_agent
    verbose := false
    rate_limit := none
    rate_limit_used := none
    rate_limit_remaining := none
    user_token := user_token }

/-- The three rate-limit header names read by `UserTokenClient._request`. -/
def rlHeader : String := "X-Discogs-Ratelimit"

/-- Header name `X-Discogs-Ratelimit-Used`. -/
def rlUsedHeader : String := "X-Discogs-Ratelimit-Used"

/-- Header name `X-Discogs-Ratelimit-Remaining`. -/
def rlRemainingHeader : String := "X-Discogs-Ratelimit-Remaining"

/-- `UserTokenClient._request(method, url, data, headers)`.

Returns the request that was issued to `requests.request` (with the token
attached as the query parameter `"token"`), the client state after the call,
and either the `(resp.content, resp.status_code)` pair or the raised
exception.  The three header reads and `int` conversions happen
unconditionally after the call, in source order, so a failure on a later
header leaves the earlier assignments in place — exactly like the Python
attribute assignments. -/
def UserTokenClient._request (c : UserTokenClient) (method url : String)
    (data : Option String) (headers : Option (List (String × String)))
    (resp : Response) :
    HTTPRequest × UserTokenClient × Except PyErr (String × Nat) :=
  let params := [("token", c.user_token)]
  let req : HTTPRequest :=
    { method := method, url := url, params := params, data := data, headers := headers }
  match pyInt (headersGet resp.headers rlHeader) with
  | .error e => (req, c, .error e)
  | .ok rl =>
    let c := { c with rate_limit := some rl }
    match pyInt (headersGet resp.headers rlUsedHeader) with
    | .error e => (req, c, .error e)
    | .ok rlUsed =>
      let c := { c with rate_limit_used := some rlUsed }
      match pyInt (headersGet resp.headers rlRemainingHeader) with
      | .error e => (req, c, .error e)
      | .ok rlRemaining =>
        let c := { c with rate_limit_remaining := some rlRemaining }
        (req, c, .ok (resp.content, resp.status_code))

/-- The Python value returned by a successful `Client._get`: the sentinel
`False` for a non-200 status, a decoded JSON value for an API read, or the
raw content for a non-API read. -/
inductive GetResult where
  /-- The literal `False` returned when `status_code != 200`. -/
  | sentinelFalse
  /-- `json.loads(response_content)` (the `is_api` branch). -/
  | json (j : JSON)
  /-- `response_content` verbatim (the `not is_api` branch). -/
  | raw (s : String)
deriving Repr

/-- `Client._get(url, is_api)`, with `self._request` dispatched to
`UserTokenClient._request`: perform the GET, return `False` when the status
is not 200 (after logging), otherwise decode the body with `loads`
(the external `json.loads`) when `is_api`. -/
def UserTokenClient._get (loads : String → Except PyErr JSON)
    (c : UserTokenClient) (url : String) (resp : Response)
    (is_api : Bool := true) :
    UserTokenClient × Except PyErr GetResult :=
  match c._request "GET" url none none resp with
  | (_, c2, .error e) => (c2, .error e)
  | (_, c2, .ok (response_content, status_code)) =>
    if status_code != 200 then
      (c2, .ok .sentinelFalse)
    else if is_api then
      match loads response_content with
      | .error e => (c2, .error e)
      | .ok j => (c2, .ok (.json j))
    else
      (c2, .ok (.raw response_content))

/-- Modelled from the spec: `discogs_alert/entities.py` is not part of the
embedded source.  Per the spec, a `Release` is "a catalog item; identified by
a numeric ID; attributes include title, artists, format, year (fields opaque
to this core beyond being a mapping populated from JSON)".  We keep the
numeric `id` explicit and the remaining attributes as the opaque mapping. -/
structure Release where
  id : Int
  /-- The full JSON mapping the entity was populated from (opaque fields). -/
  attrs : List (String × JSON)
deriving Repr

/-- Modelled from the spec: `Release(**pairs)` — construction from a keyword
mapping.  Succeeds on a mapping carrying a numeric `id` (the spec's "numeric
ID" identity); a missing or non-numeric `id` is a construction `TypeError`
(a mapping without the identifying field is not a well-formed `Release`
mapping). -/
def Release.construct (pairs : List (String × JSON)) : Except PyErr Release :=
  match dictGet pairs "id" with
  | some (.num n) => .ok { id := n, attrs := pairs }
  | _ => .error (.typeError "Release missing required numeric id")

/-- Python `Release(**item)` on an arbitrary value: `**` requires a mapping,
anything else raises `TypeError`. -/
def Release.constructVal : JSON → Except PyErr Release
  | .obj pairs => Release.construct pairs
  | _ => .error (.typeError "argument after ** must be a mapping")

/-- Modelled from the spec: a `Listing` is "a single marketplace offer for a
release; attributes include price, condition, seller, listing ID" — all
opaque to this core, so it wraps the mapping it was populated from. -/
structure Listing where
  attrs : List (String × JSON)
deriving Repr

/-- Modelled from the spec: `Listing(**d)` — construction from the decoded
mapping; a non-mapping argument to `**` raises `TypeError`. -/
def Listing.constructVal : JSON → Except PyErr Listing
  | .obj pairs => .ok { attrs := pairs }
  | _ => .error (.typeError "argument after ** must be a mapping")

/-- Modelled from the spec: a `UserList` "contains an ordered sequence of
Release references (materialized, not just IDs)"; the other attributes of the
outer list object are opaque. -/
structure UserList where
  items : List Release
  /-- The remaining pairs of the outer list mapping (name, owner, ...). -/
  attrs : List (String × JSON)
deriving Repr

/-- Modelled from the spec: `ReleaseStats` holds "aggregate marketplace
statistics for a release (e.g., lowest price, number for sale)" — opaque
fields populated from the JSON mapping. -/
structure ReleaseStats where
  attrs : List (String × JSON)
deriving Repr

/-- Python `for item in x` over a JSON value: a list yields its elements, a
string yields its characters, a dict yields its keys; other values raise
`TypeError`. -/
def pyIter : JSON → Except PyErr (List JSON)
  | .arr elems => .ok elems
  | .str s => .ok (s.toList.map (fun ch => .str (String.mk [ch])))
  | .obj pairs => .ok (pairs.map (fun p => .str p.1))
  | _ => .error (.typeError "object is not iterable")

/-- The list comprehension `[Release(**item) for item in items]`: constructs
each element in order, propagating the first raised exception. -/
def constructReleases : List JSON → Except PyErr (List Release)
  | [] => .ok []
  | item :: rest =>
    match Release.constructVal item with
    | .error e => .error e
    | .ok r =>
      match constructReleases rest with
      | .error e => .error e
      | .ok rs => .ok (r :: rs)

/-- `Client.get_list(list_id)` (with the token transport):

`user_list_dict = self._get(f"{base}/lists/{list_id}")`, then
`user_list_dict["items"] = [Release(**item) for item in user_list_dict["items"]]`,
then `UserList(**user_list_dict)`.  Subscripting the sentinel `False` or a
non-dict decoded body raises `TypeError`; a dict without `"items"` raises
`KeyError`. -/
def UserTokenClient.get_list (loads : String → Except PyErr JSON)
    (c : UserTokenClient) (list_id : Int) (resp : Response) :
    UserTokenClient × Except PyErr UserList :=
  match c._get loads (base_url ++ "/lists/" ++ toString list_id) resp with
  | (c2, .error e) => (c2, .error e)
  | (c2, .ok v) =>
    match v with
    | .json (.obj pairs) =>
      match dictGet pairs "items" with
      | none => (c2, .error (.keyError "items"))
      | some itemsVal =>
        match pyIter itemsVal with
        | .error e => (c2, .error e)
        | .ok items =>
          match constructReleases items with
          | .error e => (c2, .error e)
          | .ok releases =>
            (c2, .ok { items := releases, attrs := dictRemove pairs "items" })
    | _ => (c2, .error (.typeError "object is not subscriptable"))

/-- `Client.get_listing(listing_id)` (with the token transport):
`Listing(**self._get(f"{base}/marketplace/listings/{listing_id}"))`. -/
def UserTokenClient.get_listing (loads : String → Except PyErr JSON)
    (c : UserTokenClient) (listing_id : Int) (resp : Response) :
    UserTokenClient × Except PyErr Listing :=
  match c._get loads (base_url ++ "/marketplace/listings/" ++ toString listing_id) resp with
  | (c2, .error e) => (c2, .error e)
  | (c2, .ok v) =>
    match v with
    | .json j => (c2, Listing.constructVal j)
    | _ => (c2, .error (.typeError "argument after ** must be a mapping"))

/-- `Client.get_release(release_id)` (with the token transport):
`Release(**self._get(f"{base}/releases/{release_id}"))`.  Note the entity is
populated from the response body alone. -/
def UserTokenClient.get_release (loads : String → Except PyErr JSON)
    (c : UserTokenClient) (release_id : Int) (resp : Response) :
    UserTokenClient × Except PyErr Release :=
  match c._get loads (base_url ++ "/releases/" ++ toString release_id) resp with
  | (c2, .error e) => (c2, .error e)
  | (c2, .ok v) =>
    match v with
    | .json j => (c2, Release.constructVal j)
    | _ => (c2, .error (.typeError "argument after ** must be a mapping"))

/-- The `Union[ReleaseStats, bool]` returned by `Client.get_release_stats`. -/
inductive StatsResult where
  /-- The literal `False` ("no stats"). -/
  | sentinelFalse
  | stats (s : ReleaseStats)
deriving Repr

/-- `Client.get_release_stats(release_id)` (with the token transport):
`d = self._get(f"{base}/marketplace/stats/{release_id}")`, then
`ReleaseStats(**d) if isinstance(d, dict) else False`. -/
def UserTokenClient.get_release_stats (loads : String → Except PyErr JSON)
    (c : UserTokenClient) (release_id : Int) (resp : Response) :
    UserTokenClient × Except PyErr StatsResult :=
  match c._get loads (base_url ++ "/marketplace/stats/" ++ toString release_id) resp with
  | (c2, .error e) => (c2, .error e)
  | (c2, .ok v) =>
    match v with
    | .json (.obj pairs) => (c2, .ok (.stats { attrs := pairs }))
    | _ => (c2, .ok .sentinelFalse)

/-- `Client.get_wantlist(username)` (with the token transport): returns
`self._get(f"{base}/users/{username}/wants")` directly (no entity layer). -/
def UserTokenClient.get_wantlist (loads : String → Except PyErr JSON)
    (c : UserTokenClient) (username : String) (resp : Response) :
    UserTokenClient × Except PyErr GetResult :=
  c._get loads (base_url ++ "/users/" ++ username ++ "/wants") resp

/-- `AnonClient.get_marketplace_listings(release_id)` builds this URL:
`f"{self._base_url_non_api}/sell/release/{release_id}?ev=rb&sort=price%2Casc"`. -/
def marketplaceURL (release_id : Int) : String :=
  base_url_non_api ++ "/sell/release/" ++ toString release_id ++ "?ev=rb&sort=price%2Casc"

/-- `AnonClient.get_marketplace_listings(release_id)`:
`self.driver.get(url)` followed by reading `self.driver.page_source` is
modelled by the browser-session function `render : url → html` ("rendering
failures surface as empty/partial HTML, not as an error code" per the spec,
so `render` is total); the scraper `scrape_listings_from_marketplace` is
modelled from the spec as the pure parser `parse(html, releaseId) -> Listings`
(the scrape module is not part of the embedded source). -/
def AnonClient.get_marketplace_listings (render : String → String)
    (scrape_listings_from_marketplace : String → Int → List Listing)
    (release_id : Int) : List Listing :=
  scrape_listings_from_marketplace (render (marketplaceURL release_id)) release_id

/-! ## Helper lemmas and sample values -/

/-- Unfolding `_request` when all three rate-limit headers convert to
integers: the issued request carries the token parameter, the tracker is set
to exactly the three integers, and the `(content, status)` pair is returned
unconditionally (no status check happens in the transport). -/
theorem request_ok_eq (c : UserTokenClient) (method url : String)
    (data : Option String) (hdrs : Option (List (String × String)))
    (resp : Response) (n1 n2 n3 : Int)
    (h1 : pyInt (headersGet resp.headers rlHeader) = .ok n1)
    (h2 : pyInt (headersGet resp.headers rlUsedHeader) = .ok n2)
    (h3 : pyInt (headersGet resp.headers rlRemainingHeader) = .ok n3) :
    c._request method url data hdrs resp =
      ({ method := method, url := url, params := [("token", c.user_token)],
         data := data, headers := hdrs },
       { c with rate_limit := some n1, rate_limit_used := some n2,
                rate_limit_remaining := some n3 },
       .ok (resp.content, resp.status_code)) := by
  unfold UserTokenClient._request
  rw [h1, h2, h3]

/-- A sample client object, `UserTokenClient("test-agent", "secret-token")`. -/
def sampleClient : UserTokenClient := UserTokenClient.init "test-agent" "secret-token"

/-- Sample response headers carrying the rate-limit triple 60 / 23 / 37. -/
def sampleHeaders : List (String × String) :=
  [("X-Discogs-Ratelimit", "60"), ("X-Discogs-Ratelimit-Used", "23"),
   ("X-Discogs-Ratelimit-Remaining", "37")]

/-- A 404 response (rate-limit headers present). -/
def sample404Response : Response :=
  { headers := sampleHeaders, content := "Not Found", status_code := 404 }

/-- A 500 response (rate-limit headers present). -/
def sample500Response : Response :=
  { headers := sampleHeaders, content := "Server Error", status_code := 500 }

/-- A 200 response (rate-limit headers present). -/
def sample200Response : Response :=
  { headers := sampleHeaders, content := "body", status_code := 200 }

/-- A response with no headers at all (so every rate-limit header is absent). -/
def bareResponse : Response := { headers := [], content := "", status_code := 200 }

/-- A decoder always failing, modelling `json.loads` on a malformed body. -/
def loadsFail : String → Except PyErr JSON := fun s => .error (.jsonDecodeError s)

/-- A decoder returning the mapping for a release whose body id is 7. -/
def loadsId7 : String → Except PyErr JSON := fun _ => .ok (.obj [("id", .num 7)])

/-- A decoder returning the empty JSON list (stats endpoint "no stats" shape). -/
def loadsEmptyList : String → Except PyErr JSON := fun _ => .ok (.arr [])

/-- `_get` on a non-200 response (headers fine): the sentinel `False` is
returned and the tracker holds the header integers. -/
theorem get_non200_eq (loads : String → Except PyErr JSON)
    (c : UserTokenClient) (url : String) (resp : Response) (is_api : Bool)
    (n1 n2 n3 : Int)
    (h1 : pyInt (headersGet resp.headers rlHeader) = .ok n1)
    (h2 : pyInt (headersGet resp.headers rlUsedHeader) = .ok n2)
    (h3 : pyInt (headersGet resp.headers rlRemainingHeader) = .ok n3)
    (hs : resp.status_code ≠ 200) :
    c._get loads url resp is_api =
      ({ c with rate_limit := some n1, rate_limit_used := some n2,
                rate_limit_remaining := some n3 },
       .ok .sentinelFalse) := by
  unfold UserTokenClient._get
  rw [request_ok_eq c "GET" url none none resp n1 n2 n3 h1 h2 h3]
  simp [hs]

/-- `_get` on a 200 response whose body fails to decode: the
`json.JSONDecodeError` propagates. -/
theorem get_loads_error_eq (loads : String → Except PyErr JSON)
    (c : UserTokenClient) (url : String) (resp : Response)
    (n1 n2 n3 : Int) (e : PyErr)
    (h1 : pyInt (headersGet resp.headers rlHeader) = .ok n1)
    (h2 : pyInt (headersGet resp.headers rlUsedHeader) = .ok n2)
    (h3 : pyInt (headersGet resp.headers rlRemainingHeader) = .ok n3)
    (hs : resp.status_code = 200)
    (hl : loads resp.content = .error e) :
    c._get loads url resp true =
      ({ c with rate_limit := some n1, rate_limit_used := some n2,
                rate_limit_remaining := some n3 },
       .error e) := by
  unfold UserTokenClient._get
  rw [request_ok_eq c "GET" url none none resp n1 n2 n3 h1 h2 h3]
  simp [hs, hl]

/-- `_get` on a 200 response whose body decodes to `body`. -/
theorem get_loads_ok_eq (loads : String → Except PyErr JSON)
    (c : UserTokenClient) (url : String) (resp : Response)
    (n1 n2 n3 : Int) (body : JSON)
    (h1 : pyInt (headersGet resp.headers rlHeader) = .ok n1)
    (h2 : pyInt (headersGet resp.headers rlUsedHeader) = .ok n2)
    (h3 : pyInt (headersGet resp.headers rlRemainingHeader) = .ok n3)
    (hs : resp.status_code = 200)
    (hl : loads resp.content = .ok body) :
    c._get loads url resp true =
      ({ c with rate_limit := some n1, rate_limit_used := some n2,
                rate_limit_remaining := some n3 },
       .ok (.json body)) := by
  unfold UserTokenClient._get
  rw [request_ok_eq c "GET" url none none resp n1 n2 n3 h1 h2 h3]
  simp [hs, hl]

/-- Whatever the status and body, `_get` leaves the client in the state
produced by its single `_request` (good headers): the tracker fields hold the
three header integers and nothing downstream mutates them. -/
theorem get_fst_eq (loads : String → Except PyErr JSON)
    (c : UserTokenClient) (url : String) (resp : Response) (is_api : Bool)
    (n1 n2 n3 : Int)
    (h1 : pyInt (headersGet resp.headers rlHeader) = .ok n1)
    (h2 : pyInt (headersGet resp.headers rlUsedHeader) = .ok n2)
    (h3 : pyInt (headersGet resp.headers rlRemainingHeader) = .ok n3) :
    (c._get loads url resp is_api).1 =
      { c with rate_limit := some n1, rate_limit_used := some n2,
               rate_limit_remaining := some n3 } := by
  unfold UserTokenClient._get
  rw [request_ok_eq c "GET" url none none resp n1 n2 n3 h1 h2 h3]
  dsimp only
  repeat' split
  all_goals rfl

/-- `get_release` leaves the client exactly in the post-`_request` state. -/
theorem get_release_fst_eq (loads : String → Except PyErr JSON)
    (c : UserTokenClient) (release_id : Int) (resp : Response)
    (n1 n2 n3 : Int)
    (h1 : pyInt (headersGet resp.headers rlHeader) = .ok n1)
    (h2 : pyInt (headersGet resp.headers rlUsedHeader) = .ok n2)
    (h3 : pyInt (headersGet resp.headers rlRemainingHeader) = .ok n3) :
    (c.get_release loads release_id resp).1 =
      { c with rate_limit := some n1, rate_limit_used := some n2,
               rate_limit_remaining := some n3 } := by
  have hfst := get_fst_eq loads c (base_url ++ "/releases/" ++ toString release_id)
    resp true n1 n2 n3 h1 h2 h3
  unfold UserTokenClient.get_release
  rcases hg : UserTokenClient._get loads c
      (base_url ++ "/releases/" ++ toString release_id) resp true with ⟨c2, r⟩
  rw [hg] at hfst
  cases r with
  | error e => exact hfst
  | ok v => cases v <;> exact hfst

/-- `get_listing` leaves the client exactly in the post-`_request` state. -/
theorem get_listing_fst_eq (loads : String → Except PyErr JSON)
    (c : UserTokenClient) (listing_id : Int) (resp : Response)
    (n1 n2 n3 : Int)
    (h1 : pyInt (headersGet resp.headers rlHeader) = .ok n1)
    (h2 : pyInt (headersGet resp.headers rlUsedHeader) = .ok n2)
    (h3 : pyInt (headersGet resp.headers rlRemainingHeader) = .ok n3) :
    (c.get_listing loads listing_id resp).1 =
      { c with rate_limit := some n1, rate_limit_used := some n2,
               rate_limit_remaining := some n3 } := by
  have hfst := get_fst_eq loads c
    (base_url ++ "/marketplace/listings/" ++ toString listing_id) resp true n1 n2 n3 h1 h2 h3
  unfold UserTokenClient.get_listing
  rcases hg : UserTokenClient._get loads c
      (base_url ++ "/marketplace/listings/" ++ toString listing_id) resp true with ⟨c2, r⟩
  rw [hg] at hfst
  cases r with
  | error e => exact hfst
  | ok v => cases v <;> exact hfst

/-- `get_list` leaves the client exactly in the post-`_request` state. -/
theorem get_list_fst_eq (loads : String → Except PyErr JSON)
    (c : UserTokenClient) (list_id : Int) (resp : Response)
    (n1 n2 n3 : Int)
    (h1 : pyInt (headersGet resp.headers rlHeader) = .ok n1)
    (h2 : pyInt (headersGet resp.headers rlUsedHeader) = .ok n2)
    (h3 : pyInt (headersGet resp.headers rlRemainingHeader) = .ok n3) :
    (c.get_list loads list_id resp).1 =
      { c with rate_limit := some n1, rate_limit_used := some n2,
               rate_limit_remaining := some n3 } := by
  have hfst := get_fst_eq loads c
    (base_url ++ "/lists/" ++ toString list_id) resp true n1 n2 n3 h1 h2 h3
  unfold UserTokenClient.get_list
  rcases hg : UserTokenClient._get loads c
      (base_url ++ "/lists/" ++ toString list_id) resp true with ⟨c2, r⟩
  rw [hg] at hfst
  cases r with
  | error e => exact hfst
  | ok v =>
    cases v with
    | sentinelFalse => exact hfst
    | raw s => exact hfst
    | json j =>
      cases j with
      | obj pairs =>
        dsimp only
        cases dictGet pairs "items" with
        | none => exact hfst
        | some itemsVal =>
          dsimp only
          cases pyIter itemsVal with
          | error e => exact hfst
          | ok items =>
            dsimp only
            cases constructReleases items with
            | error e => exact hfst
            | ok releases => exact hfst
      | null => exact hfst
      | bool b => exact hfst
      | num n => exact hfst
      | str s => exact hfst
      | arr elems => exact hfst

/-- `get_release_stats` leaves the client exactly in the post-`_request`
state. -/
theorem get_release_stats_fst_eq (loads : String → Except PyErr JSON)
    (c : UserTokenClient) (release_id : Int) (resp : Response)
    (n1 n2 n3 : Int)
    (h1 : pyInt (headersGet resp.headers rlHeader) = .ok n1)
    (h2 : pyInt (headersGet resp.headers rlUsedHeader) = .ok n2)
    (h3 : pyInt (headersGet resp.headers rlRemainingHeader) = .ok n3) :
    (c.get_release_stats loads release_id resp).1 =
      { c with rate_limit := some n1, rate_limit_used := some n2,
               rate_limit_remaining := some n3 } := by
  have hfst := get_fst_eq loads c
    (base_url ++ "/marketplace/stats/" ++ toString release_id) resp true n1 n2 n3 h1 h2 h3
  unfold UserTokenClient.get_release_stats
  rcases hg : UserTokenClient._get loads c
      (base_url ++ "/marketplace/stats/" ++ toString release_id) resp true with ⟨c2, r⟩
  rw [hg] at hfst
  cases r with
  | error e => exact hfst
  | ok v =>
    cases v with
    | sentinelFalse => exact hfst
    | raw s => exact hfst
    | json j => cases j <;> exact hfst

/-- `get_wantlist` leaves the client exactly in the post-`_request` state. -/
theorem get_wantlist_fst_eq (loads : String → Except PyErr JSON)
    (c : UserTokenClient) (username : String) (resp : Response)
    (n1 n2 n3 : Int)
    (h1 : pyInt (headersGet resp.headers rlHeader) = .ok n1)
    (h2 : pyInt (headersGet resp.headers rlUsedHeader) = .ok n2)
    (h3 : pyInt (headersGet resp.headers rlRemainingHeader) = .ok n3) :
    (c.get_wantlist loads username resp).1 =
      { c with rate_limit := some n1, rate_limit_used := some n2,
               rate_limit_remaining := some n3 } := by
  unfold UserTokenClient.get_wantlist
  exact get_fst_eq loads c (base_url ++ "/users/" ++ username ++ "/wants")
    resp true n1 n2 n3 h1 h2 h3

/-! ## Claim theorems -/

/-- C1: the claim states that on every non-200 response every typed accessor
returns the sentinel false/empty value and never raises.  The code violates
this: `_get` does return the sentinel `False`, but `get_release`,
`get_listing` and `get_list` immediately unpack/subscript that sentinel
(`Release(**False)`, `Listing(**False)`, `False["items"]`), which raises
`TypeError`.  Only `get_release_stats` (which type-checks the value) and
`get_wantlist` (which returns it unchanged) satisfy the claim.  Evaluated
here on a concrete 404 response with rate-limit headers present. -/
theorem C1_non200_evaluation :
    (sampleClient.get_release loadsFail 1 sample404Response).2 =
      .error (.typeError "argument after ** must be a mapping") ∧
    (sampleClient.get_listing loadsFail 2 sample404Response).2 =
      .error (.typeError "argument after ** must be a mapping") ∧
    (sampleClient.get_list loadsFail 3 sample404Response).2 =
      .error (.typeError "object is not subscriptable") ∧
    (sampleClient.get_release_stats loadsFail 4 sample404Response).2 =
      .ok .sentinelFalse ∧
    (sampleClient.get_wantlist loadsFail "someuser" sample404Response).2 =
      .ok .sentinelFalse :=
  ⟨rfl, rfl, rfl, rfl, rfl⟩

/-- C2: if any of the three rate-limit headers is absent from the response,
the token transport's `_request` fails with a propagated error
(`int(None)` raises `TypeError`, the `MissingHeaderError`-equivalent) —
there is no defensive handling. -/
theorem C2_missing_header_fails (c : UserTokenClient) (method url : String)
    (data : Option String) (hdrs : Option (List (String × String)))
    (resp : Response)
    (habs : headersGet resp.headers rlHeader = none ∨
            headersGet resp.headers rlUsedHeader = none ∨
            headersGet resp.headers rlRemainingHeader = none) :
    ∃ e : PyErr, (c._request method url data hdrs resp).2.2 = .error e := by
  unfold UserTokenClient._request
  rcases habs with h | h | h
  · rw [h]
    exact ⟨_, rfl⟩
  · cases h1 : pyInt (headersGet resp.headers rlHeader) with
    | error e => exact ⟨e, rfl⟩
    | ok n1 => rw [h]; exact ⟨_, rfl⟩
  · cases h1 : pyInt (headersGet resp.headers rlHeader) with
    | error e => exact ⟨e, rfl⟩
    | ok n1 =>
      cases h2 : pyInt (headersGet resp.headers rlUsedHeader) with
      | error e => exact ⟨e, rfl⟩
      | ok n2 => rw [h]; exact ⟨_, rfl⟩

/-- C2 witness: a response with no headers at all makes the authenticated
request fail with a raised error. -/
theorem C2_missing_header_fails_witness :
    (headersGet bareResponse.headers rlHeader = none ∨
     headersGet bareResponse.headers rlUsedHeader = none ∨
     headersGet bareResponse.headers rlRemainingHeader = none) ∧
    ∃ e : PyErr,
      (sampleClient._request "GET" "https://api.discogs.com/releases/1" none none
        bareResponse).2.2 = .error e :=
  ⟨Or.inl rfl,
   C2_missing_header_fails sampleClient "GET" "https://api.discogs.com/releases/1"
     none none bareResponse (Or.inl rfl)⟩

/-- C8: every request issued by the token transport, whatever the method,
URL, data and headers, carries the client's user token as the query
parameter named `token` (and nothing else in the params). -/
theorem C8_token_query_param (c : UserTokenClient) (method url : String)
    (data : Option String) (hdrs : Option (List (String × String)))
    (resp : Response) :
    (c._request method url data hdrs resp).1.params = [("token", c.user_token)] ∧
    ("token", c.user_token) ∈ (c._request method url data hdrs resp).1.params := by
  unfold UserTokenClient._request
  cases h1 : pyInt (headersGet resp.headers rlHeader) with
  | error e => exact ⟨rfl, List.mem_singleton.mpr rfl⟩
  | ok n1 =>
    cases h2 : pyInt (headersGet resp.headers rlUsedHeader) with
    | error e => exact ⟨rfl, List.mem_singleton.mpr rfl⟩
    | ok n2 =>
      cases h3 : pyInt (headersGet resp.headers rlRemainingHeader) with
      | error e => exact ⟨rfl, List.mem_singleton.mpr rfl⟩
      | ok n3 => exact ⟨rfl, List.mem_singleton.mpr rfl⟩

/-- The sample client after one call that observed the headers 60 / 23 / 37. -/
def sampleUpdatedClient : UserTokenClient :=
  { sampleClient with rate_limit := some 60, rate_limit_used := some 23,
                      rate_limit_remaining := some 37 }

/-- C3: after one authenticated call whose response carries the three
rate-limit headers (parsing to `n1`, `n2`, `n3`), the tracker fields equal
exactly those three integers; and the fields then keep those values until the
next authenticated call: every typed accessor leaves the client in exactly
the state produced by its single `_request` — no post-processing step mutates
the tracker (entity construction and JSON decoding are pure functions of the
response). -/
theorem C3_tracker_update_and_frame (c : UserTokenClient) (resp : Response)
    (n1 n2 n3 : Int) (loads : String → Except PyErr JSON)
    (method url : String) (data : Option String)
    (hdrs : Option (List (String × String)))
    (release_id listing_id list_id stats_id : Int) (username : String)
    (h1 : pyInt (headersGet resp.headers rlHeader) = .ok n1)
    (h2 : pyInt (headersGet resp.headers rlUsedHeader) = .ok n2)
    (h3 : pyInt (headersGet resp.headers rlRemainingHeader) = .ok n3) :
    (c._request method url data hdrs resp).2.1 =
      { c with rate_limit := some n1, rate_limit_used := some n2,
               rate_limit_remaining := some n3 } ∧
    (c.get_release loads release_id resp).1 =
      { c with rate_limit := some n1, rate_limit_used := some n2,
               rate_limit_remaining := some n3 } ∧
    (c.get_listing loads listing_id resp).1 =
      { c with rate_limit := some n1, rate_limit_used := some n2,
               rate_limit_remaining := some n3 } ∧
    (c.get_list loads list_id resp).1 =
      { c with rate_limit := some n1, rate_limit_used := some n2,
               rate_limit_remaining := some n3 } ∧
    (c.get_release_stats loads stats_id resp).1 =
      { c with rate_limit := some n1, rate_limit_used := some n2,
               rate_limit_remaining := some n3 } ∧
    (c.get_wantlist loads username resp).1 =
      { c with rate_limit := some n1, rate_limit_used := some n2,
               rate_limit_remaining := some n3 } := by
  refine ⟨?_, ?_, ?_, ?_, ?_, ?_⟩
  · rw [request_ok_eq c method url data hdrs resp n1 n2 n3 h1 h2 h3]
  · exact get_release_fst_eq loads c release_id resp n1 n2 n3 h1 h2 h3
  · exact get_listing_fst_eq loads c listing_id resp n1 n2 n3 h1 h2 h3
  · exact get_list_fst_eq loads c list_id resp n1 n2 n3 h1 h2 h3
  · exact get_release_stats_fst_eq loads c stats_id resp n1 n2 n3 h1 h2 h3
  · exact get_wantlist_fst_eq loads c username resp n1 n2 n3 h1 h2 h3

/-- C3 witness: applied to the sample client and a concrete 200 response
carrying headers 60 / 23 / 37. -/
theorem C3_tracker_update_and_frame_witness :
    pyInt (headersGet sample200Response.headers rlHeader) = .ok 60 ∧
    pyInt (headersGet sample200Response.headers rlUsedHeader) = .ok 23 ∧
    pyInt (headersGet sample200Response.headers rlRemainingHeader) = .ok 37 ∧
    ((sampleClient._request "GET" "https://api.discogs.com/releases/1" none none
        sample200Response).2.1 = sampleUpdatedClient ∧
     (sampleClient.get_release loadsFail 1 sample200Response).1 = sampleUpdatedClient ∧
     (sampleClient.get_listing loadsFail 2 sample200Response).1 = sampleUpdatedClient ∧
     (sampleClient.get_list loadsFail 3 sample200Response).1 = sampleUpdatedClient ∧
     (sampleClient.get_release_stats loadsFail 4 sample200Response).1 = sampleUpdatedClient ∧
     (sampleClient.get_wantlist loadsFail "someuser" sample200Response).1 = sampleUpdatedClient) :=
  ⟨rfl, rfl, rfl,
   C3_tracker_update_and_frame sampleClient sample200Response 60 23 37 loadsFail
     "GET" "https://api.discogs.com/releases/1" none none 1 2 3 4 "someuser"
     rfl rfl rfl⟩

/-- C10: on a freshly constructed client all three rate-limit tracker fields
are `None`; and the token transport overwrites all three fields on every
request it performs — there is no status-code hypothesis here, because
`_request` never consults the status: it updates the tracker and only then
hands `(content, status_code)` back, so the update also happens for non-200
responses. -/
theorem C10_fresh_none_and_always_update (ua tok : String)
    (c : UserTokenClient) (method url : String) (data : Option String)
    (hdrs : Option (List (String × String))) (resp : Response)
    (n1 n2 n3 : Int)
    (h1 : pyInt (headersGet resp.headers rlHeader) = .ok n1)
    (h2 : pyInt (headersGet resp.headers rlUsedHeader) = .ok n2)
    (h3 : pyInt (headersGet resp.headers rlRemainingHeader) = .ok n3) :
    ((UserTokenClient.init ua tok).rate_limit = none ∧
     (UserTokenClient.init ua tok).rate_limit_used = none ∧
     (UserTokenClient.init ua tok).rate_limit_remaining = none) ∧
    ((c._request method url data hdrs resp).2.1.rate_limit = some n1 ∧
     (c._request method url data hdrs resp).2.1.rate_limit_used = some n2 ∧
     (c._request method url data hdrs resp).2.1.rate_limit_remaining = some n3 ∧
     (c._request method url data hdrs resp).2.2 = .ok (resp.content, resp.status_code)) := by
  refine ⟨⟨rfl, rfl, rfl⟩, ?_⟩
  rw [request_ok_eq c method url data hdrs resp n1 n2 n3 h1 h2 h3]
  exact ⟨rfl, rfl, rfl, rfl⟩

/-- C10 witness: applied on a concrete 500 response (a non-200 status) — the
tracker is still overwritten with the header integers. -/
theorem C10_fresh_none_and_always_update_witness :
    ((UserTokenClient.init "test-agent" "secret-token").rate_limit = none ∧
     (UserTokenClient.init "test-agent" "secret-token").rate_limit_used = none ∧
     (UserTokenClient.init "test-agent" "secret-token").rate_limit_remaining = none) ∧
    ((sampleClient._request "GET" "https://api.discogs.com/releases/1" none none
        sample500Response).2.1.rate_limit = some 60 ∧
     (sampleClient._request "GET" "https://api.discogs.com/releases/1" none none
        sample500Response).2.1.rate_limit_used = some 23 ∧
     (sampleClient._request "GET" "https://api.discogs.com/releases/1" none none
        sample500Response).2.1.rate_limit_remaining = some 37 ∧
     (sampleClient._request "GET" "https://api.discogs.com/releases/1" none none
        sample500Response).2.2 = .ok (sample500Response.content, sample500Response.status_code)) :=
  C10_fresh_none_and_always_update "test-agent" "secret-token" sampleClient
    "GET" "https://api.discogs.com/releases/1" none none sample500Response
    60 23 37 rfl rfl rfl

/-- C9: on a 200 response whose body is not valid JSON, `_get` raises the
JSON-decoding error and it propagates through every typed accessor; the
malformed-body case is never converted to the sentinel `False`. -/
theorem C9_decode_error_propagates (c : UserTokenClient) (resp : Response)
    (loads : String → Except PyErr JSON) (url : String)
    (release_id listing_id list_id stats_id : Int) (username : String)
    (n1 n2 n3 : Int) (e : PyErr)
    (h1 : pyInt (headersGet resp.headers rlHeader) = .ok n1)
    (h2 : pyInt (headersGet resp.headers rlUsedHeader) = .ok n2)
    (h3 : pyInt (headersGet resp.headers rlRemainingHeader) = .ok n3)
    (hs : resp.status_code = 200)
    (hl : loads resp.content = .error e) :
    (c._get loads url resp true).2 = .error e ∧
    (c.get_release loads release_id resp).2 = .error e ∧
    (c.get_listing loads listing_id resp).2 = .error e ∧
    (c.get_list loads list_id resp).2 = .error e ∧
    (c.get_release_stats loads stats_id resp).2 = .error e ∧
    (c.get_wantlist loads username resp).2 = .error e := by
  refine ⟨?_, ?_, ?_, ?_, ?_, ?_⟩
  · rw [get_loads_error_eq loads c url resp n1 n2 n3 e h1 h2 h3 hs hl]
  · unfold UserTokenClient.get_release
    rw [get_loads_error_eq loads c (base_url ++ "/releases/" ++ toString release_id)
      resp n1 n2 n3 e h1 h2 h3 hs hl]
  · unfold UserTokenClient.get_listing
    rw [get_loads_error_eq loads c (base_url ++ "/marketplace/listings/" ++ toString listing_id)
      resp n1 n2 n3 e h1 h2 h3 hs hl]
  · unfold UserTokenClient.get_list
    rw [get_loads_error_eq loads c (base_url ++ "/lists/" ++ toString list_id)
      resp n1 n2 n3 e h1 h2 h3 hs hl]
  · unfold UserTokenClient.get_release_stats
    rw [get_loads_error_eq loads c (base_url ++ "/marketplace/stats/" ++ toString stats_id)
      resp n1 n2 n3 e h1 h2 h3 hs hl]
  · unfold UserTokenClient.get_wantlist
    rw [get_loads_error_eq loads c (base_url ++ "/users/" ++ username ++ "/wants")
      resp n1 n2 n3 e h1 h2 h3 hs hl]

/-- C9 witness: a 200 response whose body fails to decode makes `_get` and
all accessors raise the decode error. -/
theorem C9_decode_error_propagates_witness :
    pyInt (headersGet sample200Response.headers rlHeader) = .ok 60 ∧
    sample200Response.status_code = 200 ∧
    loadsFail sample200Response.content = .error (.jsonDecodeError "body") ∧
    ((sampleClient._get loadsFail "https://api.discogs.com/releases/1"
        sample200Response true).2 = .error (.jsonDecodeError "body") ∧
     (sampleClient.get_release loadsFail 1 sample200Response).2 =
       .error (.jsonDecodeError "body") ∧
     (sampleClient.get_listing loadsFail 2 sample200Response).2 =
       .error (.jsonDecodeError "body") ∧
     (sampleClient.get_list loadsFail 3 sample200Response).2 =
       .error (.jsonDecodeError "body") ∧
     (sampleClient.get_release_stats loadsFail 4 sample200Response).2 =
       .error (.jsonDecodeError "body") ∧
     (sampleClient.get_wantlist loadsFail "someuser" sample200Response).2 =
       .error (.jsonDecodeError "body")) :=
  ⟨rfl, rfl, rfl,
   C9_decode_error_propagates sampleClient sample200Response loadsFail
     "https://api.discogs.com/releases/1" 1 2 3 4 "someuser" 60 23 37
     (.jsonDecodeError "body") rfl rfl rfl rfl rfl⟩

/-- C4: `get_release_stats` on a 200 response returns the sentinel `False`
whenever the decoded body is not a mapping, and a populated `ReleaseStats`
entity whenever it is a mapping (the `isinstance(..., dict)` check). -/
theorem C4_stats_mapping_check (c : UserTokenClient) (resp : Response)
    (loads : String → Except PyErr JSON) (release_id : Int) (body : JSON)
    (n1 n2 n3 : Int)
    (h1 : pyInt (headersGet resp.headers rlHeader) = .ok n1)
    (h2 : pyInt (headersGet resp.headers rlUsedHeader) = .ok n2)
    (h3 : pyInt (headersGet resp.headers rlRemainingHeader) = .ok n3)
    (hs : resp.status_code = 200)
    (hl : loads resp.content = .ok body) :
    (c.get_release_stats loads release_id resp).2 =
      .ok (match body with
           | .obj pairs => .stats { attrs := pairs }
           | _ => .sentinelFalse) := by
  unfold UserTokenClient.get_release_stats
  rw [get_loads_ok_eq loads c (base_url ++ "/marketplace/stats/" ++ toString release_id)
    resp n1 n2 n3 body h1 h2 h3 hs hl]
  cases body <;> rfl

/-- A decoder returning a well-formed stats mapping. -/
def loadsStats : String → Except PyErr JSON :=
  fun _ => .ok (.obj [("num_for_sale", .num 3), ("lowest_price", .num 12)])

/-- C4 witness: applied once with a decoded empty-list body (sentinel) and
once with a decoded mapping body (populated entity). -/
theorem C4_stats_mapping_check_witness :
    (sampleClient.get_release_stats loadsEmptyList 4 sample200Response).2 =
      .ok .sentinelFalse ∧
    (sampleClient.get_release_stats loadsStats 4 sample200Response).2 =
      .ok (.stats { attrs := [("num_for_sale", .num 3), ("lowest_price", .num 12)] }) :=
  ⟨C4_stats_mapping_check sampleClient sample200Response loadsEmptyList 4 (.arr [])
     60 23 37 rfl rfl rfl rfl rfl,
   C4_stats_mapping_check sampleClient sample200Response loadsStats 4
     (.obj [("num_for_sale", .num 3), ("lowest_price", .num 12)])
     60 23 37 rfl rfl rfl rfl rfl⟩

/-- The list comprehension over `items` preserves length and positions: if it
succeeds, the output has the input's length and the element at each position
is the `Release` constructed from the item mapping at that position. -/
theorem constructReleases_length_and_get (items : List JSON) (rs : List Release)
    (h : constructReleases items = .ok rs) :
    rs.length = items.length ∧
    ∀ i : Nat, ∀ hi : i < items.length, ∀ hi' : i < rs.length,
      Release.constructVal (items.get ⟨i, hi⟩) = .ok (rs.get ⟨i, hi'⟩) := by
  induction items generalizing rs with
  | nil =>
    simp only [constructReleases, Except.ok.injEq] at h
    subst h
    refine ⟨rfl, ?_⟩
    intro i hi
    exact absurd hi (by simp)
  | cons item rest ih =>
    simp only [constructReleases] at h
    cases hcv : Release.constructVal item with
    | error e => rw [hcv] at h; exact absurd h (by simp)
    | ok r =>
      rw [hcv] at h
      cases hcr : constructReleases rest with
      | error e => rw [hcr] at h; exact absurd h (by simp)
      | ok rs2 =>
        rw [hcr] at h
        simp only [Except.ok.injEq] at h
        subst h
        obtain ⟨hlen, hget⟩ := ih rs2 hcr
        refine ⟨by simp [hlen], ?_⟩
        intro i hi hi'
        cases i with
        | zero => exact hcv
        | succ n =>
          exact hget n (Nat.lt_of_succ_lt_succ hi) (Nat.lt_of_succ_lt_succ hi')

/-- C5: for a successfully decoded list object whose `items` array holds N
item mappings (each constructible into a `Release`), `get_list` returns a
`UserList` whose item sequence is exactly the constructed releases: same
length N and, at every position, the `Release` built from the input mapping
at the same position. -/
theorem C5_get_list_preserves_order (c : UserTokenClient) (resp : Response)
    (loads : String → Except PyErr JSON) (list_id : Int)
    (pairs : List (String × JSON)) (items : List JSON) (rs : List Release)
    (n1 n2 n3 : Int)
    (h1 : pyInt (headersGet resp.headers rlHeader) = .ok n1)
    (h2 : pyInt (headersGet resp.headers rlUsedHeader) = .ok n2)
    (h3 : pyInt (headersGet resp.headers rlRemainingHeader) = .ok n3)
    (hs : resp.status_code = 200)
    (hl : loads resp.content = .ok (.obj pairs))
    (hitems : dictGet pairs "items" = some (.arr items))
    (hrs : constructReleases items = .ok rs) :
    (c.get_list loads list_id resp).2 =
      .ok { items := rs, attrs := dictRemove pairs "items" } ∧
    rs.length = items.length ∧
    ∀ i : Nat, ∀ hi : i < items.length, ∀ hi' : i < rs.length,
      Release.constructVal (items.get ⟨i, hi⟩) = .ok (rs.get ⟨i, hi'⟩) := by
  obtain ⟨hlen, hget⟩ := constructReleases_length_and_get items rs hrs
  refine ⟨?_, hlen, hget⟩
  unfold UserTokenClient.get_list
  rw [get_loads_ok_eq loads c (base_url ++ "/lists/" ++ toString list_id)
    resp n1 n2 n3 (.obj pairs) h1 h2 h3 hs hl]
  dsimp only
  rw [hitems]
  dsimp only [pyIter]
  rw [hrs]

/-- The outer list-object mapping used in the C5 witness. -/
def sampleListPairs : List (String × JSON) :=
  [("id", .num 10), ("name", .str "wantlist"),
   ("items", .arr [.obj [("id", .num 1)], .obj [("id", .num 2)]])]

/-- The two item mappings of `sampleListPairs`. -/
def sampleListItems : List JSON :=
  [.obj [("id", .num 1)], .obj [("id", .num 2)]]

/-- The releases constructed from `sampleListItems`, in order. -/
def sampleReleases : List Release :=
  [{ id := 1, attrs := [("id", .num 1)] }, { id := 2, attrs := [("id", .num 2)] }]

/-- A decoder returning the sample list object. -/
def loadsListSample : String → Except PyErr JSON := fun _ => .ok (.obj sampleListPairs)

/-- C5 witness: a concrete list object with two item mappings yields a
`UserList` with the two releases in the same order. -/
theorem C5_get_list_preserves_order_witness :
    (sampleClient.get_list loadsListSample 3 sample200Response).2 =
      .ok { items := sampleReleases, attrs := dictRemove sampleListPairs "items" } ∧
    sampleReleases.length = sampleListItems.length ∧
    ∀ i : Nat, ∀ hi : i < sampleListItems.length, ∀ hi' : i < sampleReleases.length,
      Release.constructVal (sampleListItems.get ⟨i, hi⟩) =
        .ok (sampleReleases.get ⟨i, hi'⟩) :=
  C5_get_list_preserves_order sampleClient sample200Response loadsListSample 3
    sampleListPairs sampleListItems sampleReleases 60 23 37
    rfl rfl rfl rfl rfl rfl rfl

/-- C6 counterexample: the claim states that whenever the service responds
with status 200 and valid JSON, `get_release` returns an entity whose ID
equals the requested release ID.  The code never compares the two: the entity
is populated from the response body alone.  Here release 5 is requested, the
(well-formed, 200) response body carries id 7, and the returned entity's ID
is 7, not 5. -/
theorem C6_counterexample_id_mismatch :
    (sampleClient.get_release loadsId7 5 sample200Response).2 =
      .ok { id := 7, attrs := [("id", JSON.num 7)] } ∧ (7 : Int) ≠ 5 :=
  ⟨rfl, by decide⟩

/-- C6 (amended): for every release ID for which the service responds with
status 200 and valid JSON, `get_release` returns a `Release` entity whose ID
field equals the numeric `id` field of the decoded response body (which
coincides with the requested ID exactly when the service echoes it). -/
theorem C6_amended_id_from_body (c : UserTokenClient) (resp : Response)
    (loads : String → Except PyErr JSON) (release_id : Int)
    (pairs : List (String × JSON)) (n : Int) (n1 n2 n3 : Int)
    (h1 : pyInt (headersGet resp.headers rlHeader) = .ok n1)
    (h2 : pyInt (headersGet resp.headers rlUsedHeader) = .ok n2)
    (h3 : pyInt (headersGet resp.headers rlRemainingHeader) = .ok n3)
    (hs : resp.status_code = 200)
    (hl : loads resp.content = .ok (.obj pairs))
    (hid : dictGet pairs "id" = some (.num n)) :
    (c.get_release loads release_id resp).2 = .ok { id := n, attrs := pairs } := by
  unfold UserTokenClient.get_release
  rw [get_loads_ok_eq loads c (base_url ++ "/releases/" ++ toString release_id)
    resp n1 n2 n3 (.obj pairs) h1 h2 h3 hs hl]
  dsimp only [Release.constructVal, Release.construct]
  rw [hid]

/-- C6 amended witness: the body id 7 is returned for requested release 5. -/
theorem C6_amended_id_from_body_witness :
    dictGet [("id", JSON.num 7)] "id" = some (.num 7) ∧
    (sampleClient.get_release loadsId7 5 sample200Response).2 =
      .ok { id := 7, attrs := [("id", JSON.num 7)] } :=
  ⟨rfl,
   C6_amended_id_from_body sampleClient sample200Response loadsId7 5
     [("id", JSON.num 7)] 7 60 23 37 rfl rfl rfl rfl rfl rfl⟩

/-- C7 counterexample: the claim states the fetched URL is exactly
`https://www.discogs.com/sell/release/{id}?ev=rb&sort=price,asc`; the code
builds the URL with the comma percent-encoded (`sort=price%2Casc`), so for
release 1 the fetched URL differs from the claimed one. -/
theorem C7_counterexample_url_encoding :
    marketplaceURL 1 ≠ "https://www.discogs.com/sell/release/1?ev=rb&sort=price,asc" ∧
    marketplaceURL 1 = "https://www.discogs.com/sell/release/1?ev=rb&sort=price%2Casc" := by
  refine ⟨?_, ?_⟩
  · decide
  · rfl

/-- C7 (amended): for every release ID, `get_marketplace_listings` fetches
the marketplace page URL with the comma of the ascending-price sort key
percent-encoded (`.../sell/release/{id}?ev=rb&sort=price%2Casc`), renders it
through the browser session, hands the rendered HTML together with the
release ID to the listings parser, and returns exactly what the parser
returns. -/
theorem C7_amended_marketplace_listings (render : String → String)
    (scrape_listings_from_marketplace : String → Int → List Listing)
    (release_id : Int) :
    AnonClient.get_marketplace_listings render scrape_listings_from_marketplace release_id =
      scrape_listings_from_marketplace (render (marketplaceURL release_id)) release_id ∧
    marketplaceURL release_id =
      "https://www.discogs.com/sell/release/" ++ toString release_id ++
        "?ev=rb&sort=price%2Casc" := by
  refine ⟨rfl, ?_⟩
  show base_url_non_api ++ "/sell/release/" ++ toString release_id ++
      "?ev=rb&sort=price%2Casc" =
    "https://www.discogs.com/sell/release/" ++ toString release_id ++
      "?ev=rb&sort=price%2Casc"
  rfl
